import Mathlib

set_option autoImplicit false

/-!
Verification of the cfdev provisioning slice (src/provision/director.go and
src/pkg/servicew/client/client.go) against its specification.

The Go code is shallowly embedded: every external outcome a function consults
(file reads, channel opens, remote command exits, stat results, dial attempts)
is an explicit input, and every observable side effect is recorded in an
effect trace.  Byte strings are modelled as `List Char` and Go errors by
their message strings.
-/

namespace CFDev

/-- Go errors are modelled by their message strings. -/
abbrev GoErr := String

/-! ## String scanning (Go bytes.Replace / bytes.Contains) -/

/-- `leadsWith pat s`: `pat` occurs at the start of `s`. -/
def leadsWith : List Char → List Char → Bool
  | [], _ => true
  | _ :: _, [] => false
  | p :: ps, c :: cs => p == c && leadsWith ps cs

/-- `containsSub s pat`: `pat` occurs somewhere in `s`. -/
def containsSub (s pat : List Char) : Bool :=
  leadsWith pat s ||
    match s with
    | [] => false
    | _ :: rest => containsSub rest pat

/-- One fuel-indexed scan of Go `bytes.Replace(s, old, new, -1)`: left to
right, replacing non-overlapping occurrences of `old`.  The fuel only bounds
the recursion; `replaceAll` passes `s.length`, which suffices because every
step consumes at least one character. -/
def replaceAllFuel (old new : List Char) : Nat → List Char → List Char
  | _, [] => []
  | 0, s => s
  | fuel + 1, c :: rest =>
    if !old.isEmpty && leadsWith old (c :: rest) then
      new ++ replaceAllFuel old new fuel ((c :: rest).drop old.length)
    else
      c :: replaceAllFuel old new fuel rest

/-- Go `bytes.Replace(s, old, new, -1)` for non-empty `old`. -/
def replaceAll (s old new : List Char) : List Char :=
  replaceAllFuel old new s.length s

/-! ## Go path/filepath (Unix rules) -/

/-- Strip trailing path separators (helper for `filepath.Base`). -/
def stripTrailingSep (l : List Char) : List Char :=
  (l.reverse.dropWhile (· == '/')).reverse

/-- The maximal suffix holding no separator (helper for `filepath.Base`). -/
def afterLastSep (l : List Char) : List Char :=
  (l.reverse.takeWhile (fun c => !(c == '/'))).reverse

/-- Go `path/filepath.Base` on Unix. -/
def filepathBase (p : String) : String :=
  if p == "" then "."
  else
    let l := stripTrailingSep p.toList
    let b := afterLastSep l
    if b.isEmpty then "/" else String.mk b

/-- Split on a separator character (Go `strings.Split` with a one-character
separator, which always yields at least one element). -/
def splitOnChar (sep : Char) : List Char → List (List Char)
  | [] => [[]]
  | c :: rest =>
    let r := splitOnChar sep rest
    if c == sep then [] :: r
    else
      match r with
      | [] => [[c]]
      | h :: t => (c :: h) :: t

/-- Component stack processing of Go `path/filepath.Clean` (Unix): empty and
`"."` components are already gone; `".."` pops, except past the root or onto
a leading run of `".."` in a relative path. -/
def cleanComps (rooted : Bool) : List String → List String → List String
  | [], acc => acc.reverse
  | comp :: rest, acc =>
    if comp == ".." then
      match acc with
      | [] => if rooted then cleanComps rooted rest [] else cleanComps rooted rest [".."]
      | top :: acc2 =>
        if top == ".." then cleanComps rooted rest (".." :: top :: acc2)
        else cleanComps rooted rest acc2
    else cleanComps rooted rest (comp :: acc)

/-- Go `path/filepath.Clean` on Unix. -/
def filepathClean (p : String) : String :=
  if p == "" then "."
  else
    let rooted := leadsWith ['/'] p.toList
    let comps := ((splitOnChar '/' p.toList).map String.mk).filter (fun c => c != "" && c != ".")
    let cleaned := cleanComps rooted comps []
    let out := (if rooted then "/" else "") ++ String.intercalate "/" cleaned
    if out == "" then "." else out

/-- Go `path/filepath.Join` for two elements on Unix. -/
def filepathJoin (a b : String) : String :=
  if a == "" then
    if b == "" then "" else filepathClean b
  else filepathClean (a ++ "/" ++ b)

/-- Go `path/filepath.Dir` on Unix: everything up to and including the last
separator, cleaned. -/
def filepathDir (p : String) : String :=
  filepathClean (String.mk ((p.toList.reverse.dropWhile (fun c => !(c == '/'))).reverse))

/-! ## os.Stat outcomes -/

/-- Outcome of `os.Stat`, as far as the code inspects it. -/
inductive StatResult
  | ok
  | errNotExist
  | errOther (e : GoErr)

/-- Go `os.IsNotExist` applied to the error of `os.Stat`. -/
def osIsNotExist : StatResult → Bool
  | .errNotExist => true
  | _ => false

/-! ## Observable side effects -/

/-- Observable side effects of the provisioning and service-wrapper code. -/
inductive Eff
  | driverIP
  | sshDial (ip port : String)
  | newSession
  | closeSession
  | runRemote (cmd : String)
  | stdinBytes (bs : List Char)
  | readLocal (path : String)
  | createLocal (path : String)
  | statLocal (path : String)
  | writeLocal (path : String) (contents : List Char)
  | boshCLI (args : List String) (result : Option GoErr)
  | sleep (seconds : Nat)
  | execCmd (bin arg : String)
  | removeAll (path : String)

/-! ## The SSH session (src/provision/director.go, second file section) -/

/-- The mutable state of an `SSH` value.  Only the `Error` field is ever
reassigned in the source; the client handle and the two output sinks are
fixed at construction, so they appear in the effect trace instead. -/
structure SSHState where
  Error : Option GoErr

/-- External outcomes consulted by `SSH.Run`. -/
structure RunEnv where
  newSessionErr : Option GoErr
  runErr : Option GoErr

/-- External outcomes consulted by `SSH.SendData`. -/
structure SendDataEnv where
  newSessionErr : Option GoErr
  /-- `io.Copy` outcome in the writer goroutine: `none` means the payload was
  copied in full; `some (n, e)` means `n` bytes were copied and then the copy
  failed with `e` (the source merely prints `e`). -/
  copyFail : Option (Nat × GoErr)
  /-- `session.Run` of the scp command; the source deliberately ignores it. -/
  runErr : Option GoErr

/-- External outcomes consulted by `SSH.SendFile`. -/
structure SendFileEnv where
  readResult : Except GoErr (List Char)
  sendData : SendDataEnv

/-- External outcomes consulted by `SSH.RetrieveFile`. -/
structure RetrieveEnv where
  createErr : Option GoErr
  newSessionErr : Option GoErr
  runErr : Option GoErr

namespace SSH

/-- Bytes the writer goroutine of `SendData` writes to the remote stdin:
the header line via `fmt.Fprintln(w, "C0755", int64(len(srcData)),
filepath.Base(remoteFilePath))`, then `io.Copy` of the payload (a prefix on
copy failure, whose error is only printed), then `fmt.Fprintln(w, "\x00")`. -/
def writerBytes (srcData : List Char) (remoteFilePath : String)
    (copyFail : Option (Nat × GoErr)) : List Char :=
  ("C0755 " ++ toString srcData.length ++ " " ++ filepathBase remoteFilePath ++ "\n").toList
    ++ (match copyFail with
        | none => srcData
        | some nc => srcData.take nc.1)
    ++ "\x00\n".toList

/-- The remote receiving command of `SendData`. -/
def scpCommand (remoteFilePath : String) : String :=
  "/usr/bin/scp -qt " ++ filepathDir remoteFilePath

/-- `func (s *SSH) Run(command string)`. -/
def Run (s : SSHState) (command : String) (env : RunEnv) : SSHState × List Eff :=
  match s.Error with
  | some _ => (s, [])
  | none =>
    match env.newSessionErr with
    | some e => ({ Error := some e }, [.newSession])
    | none => ({ Error := env.runErr }, [.newSession, .runRemote command, .closeSession])

/-- `func (s *SSH) SendData(srcData []byte, remoteFilePath string)`.  Note
that neither the writer failure nor the scp command result is assigned to the
error slot. -/
def SendData (s : SSHState) (srcData : List Char) (remoteFilePath : String)
    (env : SendDataEnv) : SSHState × List Eff :=
  match s.Error with
  | some _ => (s, [])
  | none =>
    match env.newSessionErr with
    | some e => ({ Error := some e }, [.newSession])
    | none =>
      ({ Error := none },
       [.newSession, .stdinBytes (writerBytes srcData remoteFilePath env.copyFail),
        .runRemote (scpCommand remoteFilePath), .closeSession])

/-- `func (s *SSH) SendFile(filePath string, remoteFilePath string)`. -/
def SendFile (s : SSHState) (filePath remoteFilePath : String) (env : SendFileEnv) :
    SSHState × List Eff :=
  match s.Error with
  | some _ => (s, [])
  | none =>
    match env.readResult with
    | .error e => ({ Error := some e }, [.readLocal filePath])
    | .ok data =>
      let r := SendData s data remoteFilePath env.sendData
      (r.1, .readLocal filePath :: r.2)

/-- `func (s *SSH) RetrieveFile(filePath string, remoteFilePath string)`. -/
def RetrieveFile (s : SSHState) (filePath remoteFilePath : String) (env : RetrieveEnv) :
    SSHState × List Eff :=
  match s.Error with
  | some _ => (s, [])
  | none =>
    match env.createErr with
    | some e => ({ Error := some e }, [.createLocal filePath])
    | none =>
      match env.newSessionErr with
      | some e => ({ Error := some e }, [.createLocal filePath, .newSession])
      | none =>
        ({ Error := env.runErr },
         [.createLocal filePath, .newSession, .runRemote ("cat " ++ remoteFilePath),
          .closeSession])

end SSH

/-- One RemoteSession operation together with the external outcomes it would
consult when it actually executes. -/
inductive SessionOp
  | run (command : String) (env : RunEnv)
  | sendFile (filePath remoteFilePath : String) (env : SendFileEnv)
  | sendData (srcData : List Char) (remoteFilePath : String) (env : SendDataEnv)
  | retrieveFile (filePath remoteFilePath : String) (env : RetrieveEnv)

/-- Execute one operation on a session state. -/
def SessionOp.exec (s : SSHState) : SessionOp → SSHState × List Eff
  | .run c env => SSH.Run s c env
  | .sendFile fp rp env => SSH.SendFile s fp rp env
  | .sendData d rp env => SSH.SendData s d rp env
  | .retrieveFile fp rp env => SSH.RetrieveFile s fp rp env

/-- The error an operation stores when executed with an empty error slot. -/
def SessionOp.result (op : SessionOp) : Option GoErr :=
  (SessionOp.exec { Error := none } op).1.Error

/-- Execute a sequence of operations, threading the session state. -/
def execSeq (s : SSHState) : List SessionOp → SSHState
  | [] => s
  | op :: rest => execSeq (SessionOp.exec s op).1 rest

/-! ## waitForSSH (src/provision/director.go) -/

/-- The one result `waitForSSH` hands back over its two channels. -/
inductive WaitResult
  | connected
  | keyFormatError (msg : GoErr)
  | timedOut (lastDial : Option GoErr)

/-- External world of one `waitForSSH` call: the key-parse outcome, how many
ticker firings the select loop handles before it takes the timeout case, and
the outcome of each dial attempt (`none` = connected). -/
structure DialWorld where
  parseErr : Option GoErr
  ticks : Nat
  dial : Nat → Option GoErr

/-- The select loop of `waitForSSH`: on each remaining tick dial once; the
first success wins, otherwise the timeout reports the last recorded dial
error.  Also returns the number of dial attempts performed. -/
def dialLoop (dial : Nat → Option GoErr) : Option GoErr → Nat → Nat → WaitResult × Nat
  | lastErr, i, 0 => (.timedOut lastErr, i)
  | _, i, r + 1 =>
    match dial i with
    | none => (.connected, i + 1)
    | some e => dialLoop dial (some e) (i + 1) r

/-- `func waitForSSH(ip, port string, privateKey []byte, timeout time.Duration)`:
parse the private key first, then poll dialing until success or timeout. -/
def waitForSSH (w : DialWorld) : WaitResult × Nat :=
  match w.parseErr with
  | some e => (.keyFormatError ("could not parse private key: " ++ e), 0)
  | none => dialLoop w.dial none 0 w.ticks

/-! ## Controller.DeployBosh (src/provision/director.go, first file section) -/

def vpnkitNameserverIP : String := "192.168.65.1"
def vpnkitHostIP : String := "192.168.65.2"
def vpnkitInternalIP : String := "192.168.65.3"
def kvmNameserverIP : String := "192.168.122.1"

/-- `credhubIsDeployed`: a `creds.yml` that does not exist is taken to mean
credhub is already deployed (polarity preserved from the source). -/
def credhubIsDeployed (credsStat : StatResult) : Bool :=
  osIsNotExist credsStat

/-- The two literal substitutions DeployBosh applies to the director
configuration text on the KVM (linux) backend. -/
def kvmSubstitute (ip : String) (t : List Char) : List Char :=
  replaceAll (replaceAll t (vpnkitInternalIP ++ ":9999").toList (ip ++ ":9999").toList)
    vpnkitNameserverIP.toList kvmNameserverIP.toList

/-- The configuration directories DeployBosh reads from. -/
structure Config where
  stateBosh : String
  stateDir : String
  logDir : String

structure Controller where
  Config : Config

/-- External outcomes consulted by one `DeployBosh` run, in program order. -/
structure DeployEnv where
  ipResult : Except GoErr String
  logCreateErr : Option GoErr
  keyRead : Except GoErr (List Char)
  /-- `NewSSH` outcome: `some e` when `waitForSSH` failed. -/
  sshErr : Option GoErr
  directorRead : Except GoErr (List Char)
  /-- `os.Stat(credsPath)` outcome, consulted by `credhubIsDeployed`. -/
  credsStat : StatResult
  /-- `runtime.GOOS == "linux"`. -/
  goosLinux : Bool
  sendDirector : SendDataEnv
  sendState : SendFileEnv
  sendCreds : SendFileEnv
  runDeploy : RunEnv
  retrieveState : RetrieveEnv
  cloudRead : Except GoErr (List Char)
  cloudWriteErr : Option GoErr
  /-- `boshRunner.Output("-n", "update-cloud-config", ...)`; return discarded. -/
  cloudCLI : Option GoErr
  dnsRead : Except GoErr (List Char)
  dnsWriteErr : Option GoErr
  /-- `boshRunner.Output("-n", "update-runtime-config", ...)`; return discarded. -/
  dnsCLI : Option GoErr

/-- `func (c *Controller) DeployBosh() error`.  Deferred `Close` calls touch
no state the claims observe and are not traced. -/
def Controller.DeployBosh (c : Controller) (env : DeployEnv) : Except GoErr Unit × List Eff :=
  let credsPath := filepathJoin c.Config.stateBosh "creds.yml"
  let directorPath := filepathJoin c.Config.stateBosh "director.yml"
  let cloudConfigPath := filepathJoin c.Config.stateBosh "cloud-config.yml"
  let dnsConfigPath := filepathJoin c.Config.stateBosh "dns.yml"
  let stateJSONPath := filepathJoin c.Config.stateBosh "state.json"
  match env.ipResult with
  | .error e => (.error e, [.driverIP])
  | .ok ip =>
  let t0 : List Eff := [.driverIP, .createLocal (filepathJoin c.Config.logDir "deploy-bosh.log")]
  match env.logCreateErr with
  | some e => (.error e, t0)
  | none =>
  let t1 := t0 ++ [.readLocal (filepathJoin c.Config.stateDir "id_rsa")]
  match env.keyRead with
  | .error e => (.error e, t1)
  | .ok _ =>
  let t2 := t1 ++ [.sshDial ip "9992"]
  match env.sshErr with
  | some e => (.error e, t2)
  | none =>
  let t3 := t2 ++ [.readLocal directorPath]
  match env.directorRead with
  | .error e => (.error e, t3)
  | .ok directorContents0 =>
  let directorContents :=
    if env.goosLinux then kvmSubstitute ip directorContents0 else directorContents0
  let r1 := SSH.SendData { Error := none } directorContents "director.yml" env.sendDirector
  let r2 := SSH.SendFile r1.1 stateJSONPath "state.json" env.sendState
  let command0 := "/usr/local/bin/bosh --tty create-env director.yml --state state.json"
  let afterCreds : SSHState × List Eff × String :=
    if !credhubIsDeployed env.credsStat then
      let r3 := SSH.SendFile r2.1 credsPath "creds.yml" env.sendCreds
      (r3.1, r3.2, command0 ++ " --vars-store creds.yml")
    else (r2.1, [], command0)
  let r4 := SSH.Run afterCreds.1 afterCreds.2.2 env.runDeploy
  let r5 := SSH.RetrieveFile r4.1 stateJSONPath "state.json" env.retrieveState
  let t4 := t3 ++ r1.2 ++ r2.2 ++ [.statLocal credsPath] ++ afterCreds.2.1 ++ [.sleep 7]
    ++ r4.2 ++ r5.2
  match r5.1.Error with
  | some e => (.error e, t4)
  | none =>
  if env.goosLinux then
    match env.cloudRead with
    | .error e => (.error e, t4 ++ [.readLocal cloudConfigPath])
    | .ok cloudConfigContents0 =>
    let cloudConfigContents :=
      replaceAll cloudConfigContents0 vpnkitNameserverIP.toList kvmNameserverIP.toList
    let t5 := t4 ++ [.readLocal cloudConfigPath, .writeLocal cloudConfigPath cloudConfigContents]
    match env.cloudWriteErr with
    | some e => (.error e, t5)
    | none =>
    let t6 := t5 ++ [.boshCLI ["-n", "update-cloud-config", cloudConfigPath] env.cloudCLI]
    match env.dnsRead with
    | .error e => (.error e, t6 ++ [.readLocal dnsConfigPath])
    | .ok dnsConfigContents0 =>
    let dnsConfigContents :=
      replaceAll dnsConfigContents0 vpnkitHostIP.toList kvmNameserverIP.toList
    let t7 := t6 ++ [.readLocal dnsConfigPath, .writeLocal dnsConfigPath dnsConfigContents]
    match env.dnsWriteErr with
    | some e => (.error e, t7)
    | none =>
      (.ok (), t7 ++ [.boshCLI ["-n", "update-runtime-config", dnsConfigPath] env.dnsCLI])
  else (.ok (), t4)

/-! ## ServiceWrapper (src/pkg/servicew/client/client.go) -/

structure ServiceWrapper where
  binaryPath : String
  workdir : String

/-- `func (s *ServiceWrapper) swrapperPath(label string) string`. -/
def swrapperPath (s : ServiceWrapper) (label : String) : String :=
  filepathJoin s.workdir (((splitOnChar '.' label.toList).map String.mk).getLastD "")

/-- `func (s *ServiceWrapper) swrapperNotExist(label string) bool`:
`os.Stat` on the wrapper path, then `os.IsNotExist`. -/
def swrapperNotExist (statResult : StatResult) : Bool :=
  osIsNotExist statResult

/-- A single-quote character, used by the `fmt.Errorf` format strings. -/
def sq : String := String.singleton (Char.ofNat 39)

/-- Modelled from the spec: the servicew `program` package (outside src)
defines the literal a status query prints while the service runs; its exact
value does not affect any claim. -/
def statusRunning : String := "Running"

/-- External outcomes consulted by `ServiceWrapper.Uninstall`. -/
structure UninstallEnv where
  statResult : StatResult
  /-- `CombinedOutput` of the wrapper invocation: output, or error and output. -/
  execResult : Except (GoErr × String) String
  removeWrapperErr : Option GoErr
  removeConfigErr : Option GoErr

/-- External outcomes consulted by `ServiceWrapper.Stop`. -/
structure StopEnv where
  statResult : StatResult
  execResult : Except (GoErr × String) String

/-- External outcomes consulted by `ServiceWrapper.IsRunning`. -/
structure StatusEnv where
  statResult : StatResult
  execResult : Except (GoErr × String) String

/-- `func (s *ServiceWrapper) Uninstall(label string) error`. -/
def ServiceWrapper.Uninstall (s : ServiceWrapper) (label : String) (env : UninstallEnv) :
    Except GoErr Unit × List Eff :=
  let p := swrapperPath s label
  let definitionConfig := p ++ ".yml"
  if swrapperNotExist env.statResult then (.ok (), [.statLocal p])
  else
    match env.execResult with
    | .error eo =>
      (.error ("failed to uninstall " ++ sq ++ label ++ sq ++ ": " ++ eo.1 ++ ": " ++ eo.2),
       [.statLocal p, .execCmd p "uninstall"])
    | .ok _ =>
      match env.removeWrapperErr with
      | some e => (.error e, [.statLocal p, .execCmd p "uninstall", .removeAll p])
      | none =>
        match env.removeConfigErr with
        | some e =>
          (.error e,
           [.statLocal p, .execCmd p "uninstall", .removeAll p, .removeAll definitionConfig])
        | none =>
          (.ok (),
           [.statLocal p, .execCmd p "uninstall", .removeAll p, .removeAll definitionConfig])

/-- `func (s *ServiceWrapper) Stop(label string) error`. -/
def ServiceWrapper.Stop (s : ServiceWrapper) (label : String) (env : StopEnv) :
    Except GoErr Unit × List Eff :=
  let p := swrapperPath s label
  if swrapperNotExist env.statResult then (.ok (), [.statLocal p])
  else
    match env.execResult with
    | .error eo =>
      (.error ("failed to stop " ++ sq ++ label ++ sq ++ ": " ++ eo.1 ++ ": " ++ eo.2),
       [.statLocal p, .execCmd p "stop"])
    | .ok _ => (.ok (), [.statLocal p, .execCmd p "stop"])

/-- `func (s *ServiceWrapper) IsRunning(label string) (bool, error)`. -/
def ServiceWrapper.IsRunning (s : ServiceWrapper) (label : String) (env : StatusEnv) :
    Except GoErr Bool × List Eff :=
  let p := swrapperPath s label
  if swrapperNotExist env.statResult then (.ok false, [.statLocal p])
  else
    match env.execResult with
    | .error eo =>
      (.error ("failed to fetch status of " ++ sq ++ label ++ sq ++ ": " ++ eo.1 ++ ": " ++ eo.2),
       [.statLocal p, .execCmd p "status"])
    | .ok output => (.ok (output.trim == statusRunning), [.statLocal p, .execCmd p "status"])

/-! ## Environments in which every consulted step succeeds -/

def allOkSendData : SendDataEnv := { newSessionErr := none, copyFail := none, runErr := none }

def allOkRun : RunEnv := { newSessionErr := none, runErr := none }

def allOkRetrieve : RetrieveEnv := { createErr := none, newSessionErr := none, runErr := none }

def okSendFile (contents : List Char) : SendFileEnv :=
  { readResult := .ok contents, sendData := allOkSendData }

/-- A `DeployBosh` environment in which every consulted local and remote step
succeeds; the credentials stat, the platform, and the two discarded CLI
outcomes vary. -/
def deployEnvAllOk (ip : String) (key d sdata cdata cc dns : List Char)
    (st : StatResult) (linux : Bool) (cliA cliB : Option GoErr) : DeployEnv :=
  { ipResult := .ok ip, logCreateErr := none, keyRead := .ok key, sshErr := none,
    directorRead := .ok d, credsStat := st, goosLinux := linux,
    sendDirector := allOkSendData, sendState := okSendFile sdata,
    sendCreds := okSendFile cdata, runDeploy := allOkRun, retrieveState := allOkRetrieve,
    cloudRead := .ok cc, cloudWriteErr := none, cloudCLI := cliA,
    dnsRead := .ok dns, dnsWriteErr := none, dnsCLI := cliB }

/-! ## Session lemmas -/

/-- Every operation is a strict no-op on a session whose error slot is set. -/
theorem SessionOp.exec_of_error (e : GoErr) (op : SessionOp) :
    SessionOp.exec { Error := some e } op = ({ Error := some e }, []) := by
  cases op <;> rfl

/-- A sequence of operations on a failed session leaves the state untouched. -/
theorem execSeq_of_error (e : GoErr) (ops : List SessionOp) :
    execSeq { Error := some e } ops = { Error := some e } := by
  induction ops with
  | nil => rfl
  | cons op rest ih => rw [execSeq, SessionOp.exec_of_error]; exact ih

/-- Executing one operation from a clean slot ends in the state holding
exactly the error the operation stores. -/
theorem SessionOp.exec_fst (op : SessionOp) :
    (SessionOp.exec { Error := none } op).1 = { Error := SessionOp.result op } :=
  rfl

/-- Claim C1: every RemoteSession operation (Run, SendFile, SendData,
RetrieveFile) with a non-empty error slot returns at once with no side
effects and the slot unchanged, and over any operation sequence whose first
failing operation is op, the error reported at the end is exactly the error
of op (first failure wins). -/
theorem sshStickyErrorSlot :
    (∀ (e : GoErr) (op : SessionOp),
      SessionOp.exec { Error := some e } op = ({ Error := some e }, [])) ∧
    (∀ (pre : List SessionOp) (op : SessionOp) (post : List SessionOp) (e : GoErr),
      (∀ o ∈ pre, SessionOp.result o = none) → SessionOp.result op = some e →
      (execSeq { Error := none } (pre ++ op :: post)).Error = some e) := by
  constructor
  · exact SessionOp.exec_of_error
  · intro pre op post e hpre hop
    induction pre with
    | nil =>
      rw [List.nil_append, execSeq, SessionOp.exec_fst, hop, execSeq_of_error]
    | cons o pre ih =>
      have ho : SessionOp.result o = none := hpre o (List.mem_cons_self o pre)
      rw [List.cons_append, execSeq, SessionOp.exec_fst, ho]
      exact ih (fun o' ho' => hpre o' (List.mem_cons_of_mem o ho'))

/-- Witness for C1: a concrete three-operation sequence whose middle
operation fails; the final reported error is that middle failure. -/
theorem sshStickyErrorSlot_witness :
    (∀ o ∈ [SessionOp.run "echo ready" { newSessionErr := none, runErr := none }],
      SessionOp.result o = none) ∧
    SessionOp.result
      (SessionOp.run "bosh create-env" { newSessionErr := none, runErr := some "exit status 1" })
      = some "exit status 1" ∧
    (execSeq { Error := none }
      ([SessionOp.run "echo ready" { newSessionErr := none, runErr := none }] ++
        SessionOp.run "bosh create-env" { newSessionErr := none, runErr := some "exit status 1" } ::
        [SessionOp.retrieveFile "state.json" "state.json"
          { createErr := none, newSessionErr := none, runErr := none }])).Error
      = some "exit status 1" :=
  ⟨fun o ho => by rw [List.mem_singleton] at ho; rw [ho]; rfl,
   rfl,
   sshStickyErrorSlot.2
     [SessionOp.run "echo ready" { newSessionErr := none, runErr := none }]
     (SessionOp.run "bosh create-env" { newSessionErr := none, runErr := some "exit status 1" })
     [SessionOp.retrieveFile "state.json" "state.json"
       { createErr := none, newSessionErr := none, runErr := none }]
     "exit status 1"
     (fun o ho => by rw [List.mem_singleton] at ho; rw [ho]; rfl)
     rfl⟩

/-! ## Replacement lemmas -/

/-- A replacement pass leaves a text alone when the pattern never occurs,
whatever the fuel. -/
theorem replaceAllFuel_of_not_contains (old new : List Char) :
    ∀ (s : List Char) (fuel : Nat), containsSub s old = false →
      replaceAllFuel old new fuel s = s := by
  intro s
  induction s with
  | nil => intro fuel _; cases fuel <;> rfl
  | cons c rest ih =>
    intro fuel h
    have h' : (leadsWith old (c :: rest) || containsSub rest old) = false := h
    have h1 : leadsWith old (c :: rest) = false := by
      cases hl : leadsWith old (c :: rest)
      · rfl
      · rw [hl, Bool.true_or] at h'; exact Bool.noConfusion h'
    have h2 : containsSub rest old = false := by
      cases hc : containsSub rest old
      · rfl
      · rw [hc, Bool.or_true] at h'; exact Bool.noConfusion h'
    cases fuel with
    | zero => rfl
    | succ f => simp [replaceAllFuel, h1, ih f h2]

/-- Go bytes.Replace is the identity on a text holding no occurrence of the
pattern. -/
theorem replaceAll_of_not_contains (s old new : List Char)
    (h : containsSub s old = false) : replaceAll s old new = s :=
  replaceAllFuel_of_not_contains old new s s.length h

/-- Counterexample to C7: the KVM-backend substitution is not idempotent for
every input text — replacing an occurrence of the nameserver literal can
splice a new occurrence together, which a second pass then also replaces. -/
theorem kvmSubstitute_not_idempotent :
    kvmSubstitute "10.144.0.2"
        (kvmSubstitute "10.144.0.2" "192.168.65.192.168.65.1".toList) ≠
      kvmSubstitute "10.144.0.2" "192.168.65.192.168.65.1".toList := by
  decide

/-- Claim C7 (amended): the KVM-backend substitution is a no-op on text in
which the target literals are absent, and applying it twice agrees with
applying it once provided the once-substituted text no longer holds either
target literal (which substitution does not guarantee in general). -/
theorem kvmSubstituteNoopAndGuardedIdempotent :
    ∀ (ip : String) (t : List Char),
      (containsSub t (vpnkitInternalIP ++ ":9999").toList = false →
        containsSub t vpnkitNameserverIP.toList = false →
        kvmSubstitute ip t = t) ∧
      (containsSub (kvmSubstitute ip t) (vpnkitInternalIP ++ ":9999").toList = false →
        containsSub (kvmSubstitute ip t) vpnkitNameserverIP.toList = false →
        kvmSubstitute ip (kvmSubstitute ip t) = kvmSubstitute ip t) := by
  have key : ∀ (ip : String) (u : List Char),
      containsSub u (vpnkitInternalIP ++ ":9999").toList = false →
      containsSub u vpnkitNameserverIP.toList = false →
      kvmSubstitute ip u = u := by
    intro ip u hu1 hu2
    unfold kvmSubstitute
    rw [replaceAll_of_not_contains u _ _ hu1, replaceAll_of_not_contains u _ _ hu2]
  intro ip t
  exact ⟨key ip t, key ip (kvmSubstitute ip t)⟩

/-- Witness for C7 amended: a concrete literal-free text is untouched. -/
theorem kvmSubstituteNoopAndGuardedIdempotent_witness :
    (containsSub "internal_ip: 10.0.0.4".toList (vpnkitInternalIP ++ ":9999").toList = false ∧
      containsSub "internal_ip: 10.0.0.4".toList vpnkitNameserverIP.toList = false) ∧
    kvmSubstitute "10.144.0.2" "internal_ip: 10.0.0.4".toList =
      "internal_ip: 10.0.0.4".toList :=
  ⟨⟨by decide, by decide⟩,
   (kvmSubstituteNoopAndGuardedIdempotent "10.144.0.2" "internal_ip: 10.0.0.4".toList).1
     (by decide) (by decide)⟩

/-! ## Dial loop lemmas -/

/-- If the first k attempts fail and attempt k connects within the budget,
the loop reports success after exactly k + 1 attempts. -/
theorem dialLoop_connected (dial : Nat → Option GoErr) :
    ∀ (k r i : Nat) (lastErr : Option GoErr), k < r →
      (∀ j : Nat, j < k → (dial (i + j)).isSome = true) → dial (i + k) = none →
      dialLoop dial lastErr i r = (.connected, i + k + 1) := by
  intro k
  induction k with
  | zero =>
    intro r i lastErr hkr _ hk
    cases r with
    | zero => exact absurd hkr (by omega)
    | succ rr =>
      rw [Nat.add_zero] at hk
      simp [dialLoop, hk]
  | succ k ih =>
    intro r i lastErr hkr hj hk
    cases r with
    | zero => exact absurd hkr (by omega)
    | succ rr =>
      obtain ⟨e, he⟩ : ∃ e, dial i = some e := by
        have h0 := hj 0 (by omega)
        rw [Nat.add_zero] at h0
        exact Option.isSome_iff_exists.mp h0
      have step : dialLoop dial lastErr i (rr + 1) = dialLoop dial (some e) (i + 1) rr := by
        simp [dialLoop, he]
      rw [step]
      have hj' : ∀ j : Nat, j < k → (dial (i + 1 + j)).isSome = true := by
        intro j hjk
        have hx := hj (j + 1) (by omega)
        rwa [show i + (j + 1) = i + 1 + j by omega] at hx
      have hk' : dial (i + 1 + k) = none := by
        rwa [show i + (k + 1) = i + 1 + k by omega] at hk
      have hfin := ih rr (i + 1) (some e) (by omega) hj' hk'
      rwa [show i + 1 + k + 1 = i + (k + 1) + 1 by omega] at hfin

/-- If every attempt within the budget fails, the loop times out reporting
the error of the last attempt (none when no attempt completed). -/
theorem dialLoop_timeout (dial : Nat → Option GoErr) :
    ∀ (r i : Nat) (lastErr : Option GoErr),
      (∀ j : Nat, j < r → (dial (i + j)).isSome = true) →
      dialLoop dial lastErr i r =
        (.timedOut (if r = 0 then lastErr else dial (i + r - 1)), i + r) := by
  intro r
  induction r with
  | zero => intro i lastErr _; simp [dialLoop]
  | succ rr ih =>
    intro i lastErr hj
    obtain ⟨e, he⟩ : ∃ e, dial i = some e := by
      have h0 := hj 0 (by omega)
      rw [Nat.add_zero] at h0
      exact Option.isSome_iff_exists.mp h0
    have step : dialLoop dial lastErr i (rr + 1) = dialLoop dial (some e) (i + 1) rr := by
      simp [dialLoop, he]
    rw [step]
    have hj' : ∀ j : Nat, j < rr → (dial (i + 1 + j)).isSome = true := by
      intro j hjk
      have hx := hj (j + 1) (by omega)
      rwa [show i + (j + 1) = i + 1 + j by omega] at hx
    rw [ih (i + 1) (some e) hj']
    cases rr with
    | zero => simp [he]
    | succ rrr =>
      rw [if_neg (by omega), if_neg (by omega)]
      rw [show i + 1 + (rrr + 1) - 1 = i + (rrr + 1 + 1) - 1 by omega,
          show i + 1 + (rrr + 1) = i + (rrr + 1 + 1) by omega]

/-- Claim C5: with a well-formed key, waitForSSH produces exactly one
outcome: on the first successful dial attempt (say the k-th, all earlier ones
failing) it returns connected having made exactly k + 1 attempts; if every
attempt within the budget fails it returns the timeout error wrapping the
last dial error — none when the timeout fired before any attempt completed. -/
theorem waitForSSH_outcomes :
    ∀ (w : DialWorld), w.parseErr = none →
      (∀ k : Nat, k < w.ticks → (∀ i : Nat, i < k → (w.dial i).isSome = true) →
        w.dial k = none → waitForSSH w = (.connected, k + 1)) ∧
      ((∀ i : Nat, i < w.ticks → (w.dial i).isSome = true) →
        waitForSSH w =
          (.timedOut (if w.ticks = 0 then none else w.dial (w.ticks - 1)), w.ticks)) := by
  intro w hp
  have hw : waitForSSH w = dialLoop w.dial none 0 w.ticks := by
    rw [waitForSSH, hp]
  constructor
  · intro k hk hji hdk
    rw [hw]
    have hj0 : ∀ j : Nat, j < k → (w.dial (0 + j)).isSome = true := by
      intro j hj
      rw [Nat.zero_add]
      exact hji j hj
    have hdk0 : w.dial (0 + k) = none := by
      rw [Nat.zero_add]
      exact hdk
    have hfin := dialLoop_connected w.dial k w.ticks 0 none hk hj0 hdk0
    rwa [Nat.zero_add] at hfin
  · intro hall
    rw [hw]
    have hj0 : ∀ j : Nat, j < w.ticks → (w.dial (0 + j)).isSome = true := by
      intro j hj
      rw [Nat.zero_add]
      exact hall j hj
    have hfin := dialLoop_timeout w.dial w.ticks 0 none hj0
    rwa [Nat.zero_add] at hfin

/-- Witness for C5: two failing dials then success connects after three
attempts; a never-succeeding dial times out wrapping the last dial error. -/
theorem waitForSSH_outcomes_witness :
    waitForSSH
        { parseErr := none, ticks := 3,
          dial := fun n => if n < 2 then some "connection refused" else none } =
      (.connected, 3) ∧
    waitForSSH
        { parseErr := none, ticks := 2, dial := fun _ => some "connection refused" } =
      (.timedOut (some "connection refused"), 2) :=
  ⟨(waitForSSH_outcomes _ rfl).1 2 (by decide) (by decide) (by decide),
   (waitForSSH_outcomes _ rfl).2 (by decide)⟩

/-! ## Upload framing lemmas -/

/-- takeWhile passes over a block whose elements all satisfy the predicate. -/
theorem takeWhileAppendAll (p : Char → Bool) (l1 l2 : List Char)
    (h : ∀ a ∈ l1, p a = true) :
    (l1 ++ l2).takeWhile p = l1 ++ l2.takeWhile p := by
  induction l1 with
  | nil => rfl
  | cons a t ih =>
    have ha : p a = true := h a (List.mem_cons_self a t)
    have ih' := ih (fun b hb => h b (List.mem_cons_of_mem a hb))
    simp [List.takeWhile_cons, ha, ih']

/-- dropWhile keeps a list whose head fails the predicate. -/
theorem dropWhileHeadFalse (p : Char → Bool) (c : Char) (rest : List Char)
    (h : p c = false) : List.dropWhile p (c :: rest) = c :: rest := by
  simp [List.dropWhile_cons, h]

/-- Stripping trailing separators is the identity when the last path element
is non-empty and separator-free. -/
theorem stripTrailingSepAppend (dl nl : List Char) (hn1 : nl ≠ [])
    (hn2 : '/' ∉ nl) : stripTrailingSep (dl ++ '/' :: nl) = dl ++ '/' :: nl := by
  obtain ⟨c0, nrest, hrev⟩ : ∃ c0 nrest, nl.reverse = c0 :: nrest := by
    cases hh : nl.reverse with
    | nil => exact absurd (List.reverse_eq_nil_iff.mp hh) hn1
    | cons a b => exact ⟨a, b, rfl⟩
  have hc0 : (c0 == '/') = false := by
    rw [beq_eq_false_iff_ne]
    intro hcc
    apply hn2
    have hm : c0 ∈ nl.reverse := by
      rw [hrev]
      exact List.mem_cons_self c0 nrest
    rw [List.mem_reverse] at hm
    rwa [hcc] at hm
  have ht : (dl ++ '/' :: nl).reverse = c0 :: (nrest ++ '/' :: dl.reverse) := by
    rw [List.reverse_append, List.reverse_cons, hrev]
    simp
  rw [stripTrailingSep, ht,
    dropWhileHeadFalse (fun x => x == '/') c0 (nrest ++ '/' :: dl.reverse) hc0,
    ← ht, List.reverse_reverse]

/-- The suffix after the last separator of `dl ++ '/' :: nl` is `nl` when
`nl` is separator-free. -/
theorem afterLastSepAppend (dl nl : List Char) (hn2 : '/' ∉ nl) :
    afterLastSep (dl ++ '/' :: nl) = nl := by
  have hrw : (dl ++ '/' :: nl).reverse = nl.reverse ++ '/' :: dl.reverse := by
    rw [List.reverse_append, List.reverse_cons]
    simp
  have hall : ∀ a ∈ nl.reverse, (fun c => !(c == '/')) a = true := by
    intro a ha
    rw [List.mem_reverse] at ha
    have hne : ¬ (a = '/') := fun hc => hn2 (hc ▸ ha)
    simp [hne]
  have hstop : List.takeWhile (fun c => !(c == '/')) ('/' :: dl.reverse) = [] := by
    simp [List.takeWhile_cons]
  rw [afterLastSep, hrw, takeWhileAppendAll _ _ _ hall, hstop, List.append_nil,
    List.reverse_reverse]

/-- Go filepath.Base extracts the last element of `dir/name` when the name is
non-empty and separator-free. -/
theorem filepathBase_append (dir name : String) (h1 : name ≠ "")
    (h2 : '/' ∉ name.toList) : filepathBase (dir ++ "/" ++ name) = name := by
  have hdata : (dir ++ "/" ++ name).toList = dir.toList ++ '/' :: name.toList := by
    show ((dir ++ "/") ++ name).data = dir.data ++ '/' :: name.data
    rw [String.data_append, String.data_append, List.append_assoc]
    rfl
  have hnl : name.toList ≠ [] := by
    intro hcon
    apply h1
    cases name with
    | mk l =>
      have hl : l = [] := hcon
      rw [hl]
  have hne : ¬ ((dir ++ "/" ++ name) == "") = true := by
    rw [beq_iff_eq]
    intro hcon
    have hx : (dir ++ "/" ++ name).toList = ([] : List Char) := by
      rw [hcon]
      rfl
    rw [hdata] at hx
    exact absurd hx (by simp)
  have hie : (afterLastSep (stripTrailingSep (dir ++ "/" ++ name).toList)).isEmpty = false := by
    rw [hdata, stripTrailingSepAppend _ _ hnl h2, afterLastSepAppend _ _ h2]
    cases hx : name.toList with
    | nil => exact absurd hx hnl
    | cons a b => rfl
  simp only [filepathBase]
  rw [if_neg hne, hdata, stripTrailingSepAppend _ _ hnl h2, afterLastSepAppend _ _ h2]
  rw [hdata, stripTrailingSepAppend _ _ hnl h2, afterLastSepAppend _ _ h2] at hie
  rw [if_neg (by rw [hie]; exact Bool.noConfusion)]
  rfl

/-- Claim C3: uploading a payload via SendData to `dir / name` writes to the
remote stdin exactly the header line `C0755 <length> <name>` (mode fixed at
0755; SendData accepts no caller mode), then the raw payload bytes, then a
terminating line holding a NUL byte — including the empty payload. -/
theorem sendDataFraming (data : List Char) (dir name : String) (runRes : Option GoErr)
    (h1 : name ≠ "") (h2 : '/' ∉ name.toList) :
    (SSH.SendData { Error := none } data (dir ++ "/" ++ name)
      { newSessionErr := none, copyFail := none, runErr := runRes }).2 =
    [Eff.newSession,
     Eff.stdinBytes (("C0755 " ++ toString data.length ++ " " ++ name ++ "\n").toList
       ++ data ++ ['\x00', '\n']),
     Eff.runRemote (SSH.scpCommand (dir ++ "/" ++ name)),
     Eff.closeSession] := by
  show [Eff.newSession,
        Eff.stdinBytes (SSH.writerBytes data (dir ++ "/" ++ name) none),
        Eff.runRemote (SSH.scpCommand (dir ++ "/" ++ name)), Eff.closeSession] = _
  rw [SSH.writerBytes, filepathBase_append dir name h1 h2]
  rfl

/-- Witness for C3: a concrete three-byte payload to `dir/name.ext`, and the
empty payload, both framed as claimed. -/
theorem sendDataFraming_witness :
    ("name.ext" ≠ "" ∧ '/' ∉ "name.ext".toList) ∧
    (SSH.SendData { Error := none } "abc".toList ("dir" ++ "/" ++ "name.ext")
      { newSessionErr := none, copyFail := none, runErr := none }).2 =
    [Eff.newSession,
     Eff.stdinBytes (("C0755 " ++ toString "abc".toList.length ++ " " ++ "name.ext" ++ "\n").toList
       ++ "abc".toList ++ ['\x00', '\n']),
     Eff.runRemote (SSH.scpCommand ("dir" ++ "/" ++ "name.ext")),
     Eff.closeSession] ∧
    (SSH.SendData { Error := none } [] ("dir" ++ "/" ++ "name.ext")
      { newSessionErr := none, copyFail := none, runErr := none }).2 =
    [Eff.newSession,
     Eff.stdinBytes (("C0755 " ++ toString ([] : List Char).length ++ " " ++ "name.ext" ++ "\n").toList
       ++ [] ++ ['\x00', '\n']),
     Eff.runRemote (SSH.scpCommand ("dir" ++ "/" ++ "name.ext")),
     Eff.closeSession] :=
  ⟨⟨by decide, by decide⟩,
   sendDataFraming "abc".toList "dir" "name.ext" none (by decide) (by decide),
   sendDataFraming [] "dir" "name.ext" none (by decide) (by decide)⟩

/-- Counterexample to C2: a SendData in which the writer goroutine fails
mid-copy and the remote receiving command exits non-zero still leaves the
session error slot empty — neither failure is stored. -/
theorem sendData_drops_upload_failures :
    (SSH.SendData { Error := none } "data".toList "tmp/f.txt"
      { newSessionErr := none, copyFail := some (1, "broken pipe"),
        runErr := some "Process exited with status 1" }).1.Error = none :=
  rfl

/-- Claim C2 (amended): during SendData the only failure stored in the error
slot is a failure to open the channel; a writer-task failure is merely
printed and the remote receiving command's result is deliberately ignored,
so those failures leave the slot empty. -/
theorem sendData_error_slot :
    ∀ (srcData : List Char) (remoteFilePath : String)
      (copyFail : Option (Nat × GoErr)) (runRes : Option GoErr),
      (SSH.SendData { Error := none } srcData remoteFilePath
        { newSessionErr := none, copyFail := copyFail, runErr := runRes }).1.Error = none ∧
      ∀ e : GoErr,
        (SSH.SendData { Error := none } srcData remoteFilePath
          { newSessionErr := some e, copyFail := copyFail, runErr := runRes }).1
          = { Error := some e } := by
  intro d rp cf rr
  exact ⟨rfl, fun e => rfl⟩

/-- Claim C4: in DeployBosh with every consulted step succeeding, when
creds.yml is absent the run performs no credentials upload (the full effect
trace holds no effect on creds.yml beyond the stat) and the executed deploy
command is the base command, which holds no vars-store flag; when creds.yml
is present the trace uploads creds.yml strictly before the deploy command
runs, and that command is the base command extended with (ending in) the
vars-store flag referencing creds.yml. -/
theorem deployBoshCredentialsBranching :
    ∀ (c : Controller) (ip : String) (key d sdata cdata cc dns : List Char),
      ((Controller.DeployBosh c
          (deployEnvAllOk ip key d sdata cdata cc dns .errNotExist false none none)).2 =
        [Eff.driverIP,
         Eff.createLocal (filepathJoin c.Config.logDir "deploy-bosh.log"),
         Eff.readLocal (filepathJoin c.Config.stateDir "id_rsa"),
         Eff.sshDial ip "9992",
         Eff.readLocal (filepathJoin c.Config.stateBosh "director.yml"),
         Eff.newSession,
         Eff.stdinBytes (SSH.writerBytes d "director.yml" none),
         Eff.runRemote "/usr/bin/scp -qt .",
         Eff.closeSession,
         Eff.readLocal (filepathJoin c.Config.stateBosh "state.json"),
         Eff.newSession,
         Eff.stdinBytes (SSH.writerBytes sdata "state.json" none),
         Eff.runRemote "/usr/bin/scp -qt .",
         Eff.closeSession,
         Eff.statLocal (filepathJoin c.Config.stateBosh "creds.yml"),
         Eff.sleep 7,
         Eff.newSession,
         Eff.runRemote "/usr/local/bin/bosh --tty create-env director.yml --state state.json",
         Eff.closeSession,
         Eff.createLocal (filepathJoin c.Config.stateBosh "state.json"),
         Eff.newSession,
         Eff.runRemote "cat state.json",
         Eff.closeSession] ∧
        containsSub
          "/usr/local/bin/bosh --tty create-env director.yml --state state.json".toList
          "--vars-store".toList = false) ∧
      ((Controller.DeployBosh c
          (deployEnvAllOk ip key d sdata cdata cc dns .ok false none none)).2 =
        [Eff.driverIP,
         Eff.createLocal (filepathJoin c.Config.logDir "deploy-bosh.log"),
         Eff.readLocal (filepathJoin c.Config.stateDir "id_rsa"),
         Eff.sshDial ip "9992",
         Eff.readLocal (filepathJoin c.Config.stateBosh "director.yml"),
         Eff.newSession,
         Eff.stdinBytes (SSH.writerBytes d "director.yml" none),
         Eff.runRemote "/usr/bin/scp -qt .",
         Eff.closeSession,
         Eff.readLocal (filepathJoin c.Config.stateBosh "state.json"),
         Eff.newSession,
         Eff.stdinBytes (SSH.writerBytes sdata "state.json" none),
         Eff.runRemote "/usr/bin/scp -qt .",
         Eff.closeSession,
         Eff.statLocal (filepathJoin c.Config.stateBosh "creds.yml"),
         Eff.readLocal (filepathJoin c.Config.stateBosh "creds.yml"),
         Eff.newSession,
         Eff.stdinBytes (SSH.writerBytes cdata "creds.yml" none),
         Eff.runRemote "/usr/bin/scp -qt .",
         Eff.closeSession,
         Eff.sleep 7,
         Eff.newSession,
         Eff.runRemote
           "/usr/local/bin/bosh --tty create-env director.yml --state state.json --vars-store creds.yml",
         Eff.closeSession,
         Eff.createLocal (filepathJoin c.Config.stateBosh "state.json"),
         Eff.newSession,
         Eff.runRemote "cat state.json",
         Eff.closeSession] ∧
        ∃ i j : Nat, i < j ∧
          ((Controller.DeployBosh c
            (deployEnvAllOk ip key d sdata cdata cc dns .ok false none none)).2)[i]? =
            some (Eff.readLocal (filepathJoin c.Config.stateBosh "creds.yml")) ∧
          ((Controller.DeployBosh c
            (deployEnvAllOk ip key d sdata cdata cc dns .ok false none none)).2)[j]? =
            some (Eff.runRemote
              "/usr/local/bin/bosh --tty create-env director.yml --state state.json --vars-store creds.yml")) := by
  intro c ip key d sdata cdata cc dns
  exact ⟨⟨rfl, by decide⟩, rfl, 15, 22, by omega, rfl, rfl⟩

/-- Claim C8: in DeployBosh's linux (KVM-backend) follow-up step, with the
whole pipeline and every local file read and write succeeding, the run
reports success for every outcome of the two external CLI invocations — in
both credentials modes — even though both invocations are performed (they
appear in the trace with their discarded outcomes). -/
theorem deployBoshIgnoresCliFailures :
    ∀ (c : Controller) (ip : String) (key d sdata cdata cc dns : List Char)
      (cliA cliB : Option GoErr),
      ((Controller.DeployBosh c
          (deployEnvAllOk ip key d sdata cdata cc dns .errNotExist true cliA cliB)).1 =
        .ok ()) ∧
      ((Controller.DeployBosh c
          (deployEnvAllOk ip key d sdata cdata cc dns .ok true cliA cliB)).1 = .ok ()) ∧
      Eff.boshCLI ["-n", "update-cloud-config",
          filepathJoin c.Config.stateBosh "cloud-config.yml"] cliA ∈
        (Controller.DeployBosh c
          (deployEnvAllOk ip key d sdata cdata cc dns .errNotExist true cliA cliB)).2 ∧
      Eff.boshCLI ["-n", "update-runtime-config",
          filepathJoin c.Config.stateBosh "dns.yml"] cliB ∈
        (Controller.DeployBosh c
          (deployEnvAllOk ip key d sdata cdata cc dns .errNotExist true cliA cliB)).2 := by
  intro c ip key d sdata cdata cc dns cliA cliB
  refine ⟨rfl, rfl, ?_, ?_⟩ <;>
    simp [Controller.DeployBosh, deployEnvAllOk, allOkSendData, okSendFile, allOkRun,
      allOkRetrieve, SSH.SendData, SSH.SendFile, SSH.Run, SSH.RetrieveFile,
      credhubIsDeployed, osIsNotExist]

/-- Claim C6: for every malformed private key, waitForSSH returns the
key-format error immediately — zero dial attempts, no retry — whatever the
timeout budget and whatever dial attempts would have produced. -/
theorem waitForSSH_key_format_fail_fast :
    ∀ (ticks : Nat) (dial : Nat → Option GoErr) (e : GoErr),
      waitForSSH { parseErr := some e, ticks := ticks, dial := dial } =
        (.keyFormatError ("could not parse private key: " ++ e), 0) := by
  intro t d e
  rfl

/-- Claim C9: on a session with an empty error slot, a SendFile whose local
read fails, and a RetrieveFile whose local file creation fails, store the
local error in the slot and return having performed only the local attempt —
no channel opened, no bytes sent or received. -/
theorem localIOFailureAborts :
    ∀ (filePath remoteFilePath : String) (e : GoErr) (sd : SendDataEnv)
      (ns rr : Option GoErr),
      SSH.SendFile { Error := none } filePath remoteFilePath
        { readResult := .error e, sendData := sd } =
        ({ Error := some e }, [.readLocal filePath]) ∧
      SSH.RetrieveFile { Error := none } filePath remoteFilePath
        { createErr := some e, newSessionErr := ns, runErr := rr } =
        ({ Error := some e }, [.createLocal filePath]) := by
  intro fp rp e sd ns rr
  exact ⟨rfl, rfl⟩

/-- Claim C10: when the wrapper executable for a label does not exist,
Uninstall and Stop return nil having only performed the stat — no command is
executed and nothing is removed — and IsRunning returns (false, nil)
likewise, whatever any command invocation would have produced. -/
theorem serviceWrapperAbsentIsNoop :
    ∀ (s : ServiceWrapper) (label : String)
      (u stp q : Except (GoErr × String) String) (r1 r2 : Option GoErr),
      ServiceWrapper.Uninstall s label
        { statResult := .errNotExist, execResult := u,
          removeWrapperErr := r1, removeConfigErr := r2 } =
        (.ok (), [.statLocal (swrapperPath s label)]) ∧
      ServiceWrapper.Stop s label { statResult := .errNotExist, execResult := stp } =
        (.ok (), [.statLocal (swrapperPath s label)]) ∧
      ServiceWrapper.IsRunning s label { statResult := .errNotExist, execResult := q } =
        (.ok false, [.statLocal (swrapperPath s label)]) := by
  intro s label u stp q r1 r2
  exact ⟨rfl, rfl, rfl⟩

end CFDev
